import Mathlib

set_option maxHeartbeats 1000000

/-!
Shallow embedding of the metadata modeling, flattening and consistency-checking
subsystem of the AIM repository, covering:

* src/core/vectorstore/metadata_schema.py  (extent variants, attribute tree,
  Source/Contents metadata, flattening engine)
* src/core/vectorstore/chroma.py           (ChromaRepository.upsert_chunks,
  ChromaRepository.delete_chunks)
* src/models/custom_class.py and src/core/class_generator.py
  (CustomClassGenerator._convert_value_by_type, identical in both files)
* src/core/vectorstore/metadata_repository.py and
  src/core/vectorstore/prolog.py           (consistency-checker fact conversion)

Modeling conventions: Python runtime values are the inductive type PyVal;
Python floats are exact rationals rendered in decimal notation (every float
literal touched by the claims is an exactly representable small decimal, for
which Python prints the shortest decimal form modeled here); Python dicts are
insertion-ordered association lists; a datetime is modeled by its isoformat
string together with its timestamp value.
-/

/-- Model of a Python datetime: its isoformat string and its timestamp value. -/
structure PyDateTime where
  iso : String
  ts : ℚ
deriving DecidableEq, Repr

/-- Model of a Python runtime value as it occurs in this subsystem. -/
inductive PyVal : Type where
  | none : PyVal
  | bool (b : Bool) : PyVal
  | int (n : Int) : PyVal
  | float (q : ℚ) : PyVal
  | str (s : String) : PyVal
  | list (xs : List PyVal) : PyVal
  | dict (kvs : List (String × PyVal)) : PyVal
  | dt (d : PyDateTime) : PyVal

/-- A Python dict with string keys, as an insertion-ordered association list. -/
abbrev Dict := List (String × PyVal)

/-- Lookup in a Dict: Python `d[k]` / `d.get(k)`. -/
def dictGet : Dict → String → Option PyVal
  | [], _ => Option.none
  | (k1, v) :: rest, k => if k1 = k then some v else dictGet rest k

/-- Python dict assignment `d[k] = v`: overwrites the binding in place when the
key is present, otherwise appends the new binding at the end. -/
def dictSet : Dict → String → PyVal → Dict
  | [], k, v => [(k, v)]
  | (k1, v1) :: rest, k, v =>
      if k1 = k then (k1, v) :: rest else (k1, v1) :: dictSet rest k v

/-- One hexadecimal digit, lower case. -/
def hexDigit (n : Nat) : String :=
  String.mk [Char.ofNat (if n < 10 then 48 + n else 87 + (n % 16))]

/-- Decimal rendering of a rational that models a Python float (`repr`/`str`).
For an exactly representable decimal (the only floats the claims touch) Python
prints the shortest decimal form, reproduced here; other rationals get a
best-effort fallback that no embedded code path reaches. -/
def pyFloatRepr (q : ℚ) : String :=
  if q.den = 1 then toString q.num ++ ".0"
  else
    match (List.range 17).find? (fun k => (q * (10 : ℚ) ^ (k + 1)).den = 1) with
    | some k =>
        let digits := k + 1
        let n := (q * (10 : ℚ) ^ digits).num.natAbs
        let s0 := toString n
        let s :=
          if s0.length < digits + 1 then
            String.mk (List.replicate (digits + 1 - s0.length) '0') ++ s0
          else s0
        (if q < 0 then "-" else "")
          ++ s.take (s.length - digits) ++ "." ++ s.drop (s.length - digits)
    | Option.none => toString q

/-- Python truthiness `bool(v)` for the values of this subsystem. -/
def pyTruthy : PyVal → Bool
  | .none => false
  | .bool b => b
  | .int n => decide (n ≠ 0)
  | .float q => decide (q ≠ 0)
  | .str s => decide (s ≠ "")
  | .list xs => !xs.isEmpty
  | .dict kvs => !kvs.isEmpty
  | .dt _ => true

mutual

/-- Python `str(v)`. -/
def pyStr : PyVal → String
  | .none => "None"
  | .bool true => "True"
  | .bool false => "False"
  | .int n => toString n
  | .float q => pyFloatRepr q
  | .str s => s
  | .list xs => "[" ++ String.intercalate ", " (pyReprList xs) ++ "]"
  | .dict kvs => "\x7b" ++ String.intercalate ", " (pyReprKVs kvs) ++ "\x7d"
  | .dt d => String.mk (d.iso.data.map (fun c => if c = 'T' then ' ' else c))

/-- Python `repr(v)` (as used for the elements of container `str`). -/
def pyRepr : PyVal → String
  | .str s => "\x27" ++ s ++ "\x27"
  | .dt d => "datetime(" ++ d.iso ++ ")"
  | .none => "None"
  | .bool true => "True"
  | .bool false => "False"
  | .int n => toString n
  | .float q => pyFloatRepr q
  | .list xs => "[" ++ String.intercalate ", " (pyReprList xs) ++ "]"
  | .dict kvs => "\x7b" ++ String.intercalate ", " (pyReprKVs kvs) ++ "\x7d"

/-- `repr` of each element of a list. -/
def pyReprList : List PyVal → List String
  | [] => []
  | v :: rest => pyRepr v :: pyReprList rest

/-- `repr` of each binding of a dict. -/
def pyReprKVs : List (String × PyVal) → List String
  | [] => []
  | (k, v) :: rest => ("\x27" ++ k ++ "\x27: " ++ pyRepr v) :: pyReprKVs rest

end

/-- JSON escape of a single character (`json.dumps` with `ensure_ascii=False`). -/
def jsonEscapeChar (c : Char) : String :=
  if c = '"' then "\\\""
  else if c = '\\' then "\\\\"
  else if c = '\n' then "\\n"
  else if c = '\t' then "\\t"
  else if c = '\r' then "\\r"
  else if c = '\x08' then "\\b"
  else if c = '\x0c' then "\\f"
  else if c.toNat < 32 then "\\u00" ++ hexDigit (c.toNat / 16) ++ hexDigit (c.toNat % 16)
  else String.mk [c]

/-- A JSON string literal for `s`. -/
def jsonQuote (s : String) : String :=
  "\"" ++ String.join (s.data.map jsonEscapeChar) ++ "\""

mutual

/-- `json.dumps(v, default=custom_serializer, ensure_ascii=False, indent=None)`
as called from `BaseEntity.as_json` in metadata_schema.py: the custom
serializer turns a datetime into its isoformat string. -/
def jsonDumps : PyVal → String
  | .none => "null"
  | .bool true => "true"
  | .bool false => "false"
  | .int n => toString n
  | .float q => pyFloatRepr q
  | .str s => jsonQuote s
  | .dt d => jsonQuote d.iso
  | .list xs => "[" ++ String.intercalate ", " (jsonDumpsList xs) ++ "]"
  | .dict kvs => "\x7b" ++ String.intercalate ", " (jsonDumpsKVs kvs) ++ "\x7d"

/-- Serialization of each element of a JSON array. -/
def jsonDumpsList : List PyVal → List String
  | [] => []
  | v :: rest => jsonDumps v :: jsonDumpsList rest

/-- Serialization of each binding of a JSON object. -/
def jsonDumpsKVs : List (String × PyVal) → List String
  | [] => []
  | (k, v) :: rest => (jsonQuote k ++ ": " ++ jsonDumps v) :: jsonDumpsKVs rest

end

/-- The characters Python `str.strip()` removes. -/
def isPySpace (c : Char) : Bool :=
  c = ' ' || c = '\t' || c = '\n' || c = '\r' || c = '\x0b' || c = '\x0c'

/-- Python `s.strip()`. -/
def pyTrim (s : String) : String :=
  String.mk (((s.data.dropWhile isPySpace).reverse.dropWhile isPySpace).reverse)

/-- ASCII lower-casing of one character (Python `str.lower` on the ASCII
strings this subsystem feeds in). -/
def charLower (c : Char) : Char :=
  if 'A' ≤ c ∧ c ≤ 'Z' then Char.ofNat (c.toNat + 32) else c

/-- Python `s.lower()`. -/
def pyLower (s : String) : String :=
  String.mk (s.data.map charLower)

/-- Digit-string parsing helper shared by the models of Python `int(...)` and
`float(...)`: accepts decimal digits with single underscores between digits
(Python numeric-literal syntax); `lastWasDigit` tracks whether the previous
character was a digit. -/
def parseDigitsAux : List Char → Nat → Bool → Option Nat
  | [], acc, lastWasDigit => if lastWasDigit then some acc else Option.none
  | c :: rest, acc, lastWasDigit =>
      if c.isDigit then parseDigitsAux rest (acc * 10 + (c.toNat - 48)) true
      else if c = '_' then
        (if lastWasDigit then parseDigitsAux rest acc false else Option.none)
      else Option.none

/-- Model of Python `int(s)` on a string: optional surrounding whitespace,
optional sign, then a digit string; `Option.none` models ValueError. -/
def pyIntOfString (s : String) : Option Int :=
  match (pyTrim s).data with
  | '+' :: rest => (parseDigitsAux rest 0 false).map Int.ofNat
  | '-' :: rest => (parseDigitsAux rest 0 false).map (fun n => -(Int.ofNat n))
  | cs => (parseDigitsAux cs 0 false).map Int.ofNat

/-- Model of Python `int(value)`: `Option.none` models ValueError/TypeError
(both are caught by `_convert_value_by_type`). A float truncates toward zero. -/
def pyIntOpt : PyVal → Option Int
  | .int n => some n
  | .bool b => some (if b then 1 else 0)
  | .float q => some (if q < 0 then q.ceil else q.floor)
  | .str s => pyIntOfString s
  | _ => Option.none

/-- Split a character list at the first `e`/`E` (exponent marker). -/
def splitExp : List Char → List Char × Option (List Char)
  | [] => ([], Option.none)
  | c :: rest =>
      if c = 'e' ∨ c = 'E' then ([], some rest)
      else
        let (m, ex) := splitExp rest
        (c :: m, ex)

/-- Split a character list at the first `.` (decimal point). -/
def splitDot : List Char → List Char × Option (List Char)
  | [] => ([], Option.none)
  | c :: rest =>
      if c = '.' then ([], some rest)
      else
        let (m, f) := splitDot rest
        (c :: m, f)

/-- Parse an optionally signed digit string into a rational. -/
def parseSignedInt (cs : List Char) : Option Int :=
  match cs with
  | '+' :: rest => (parseDigitsAux rest 0 false).map Int.ofNat
  | '-' :: rest => (parseDigitsAux rest 0 false).map (fun n => -(Int.ofNat n))
  | cs2 => (parseDigitsAux cs2 0 false).map Int.ofNat

/-- Parse the mantissa of a Python float literal: `digits`, `digits.digits`,
`digits.` or `.digits`. -/
def parseMantissa (cs : List Char) : Option ℚ :=
  match splitDot cs with
  | (intPart, Option.none) => (parseDigitsAux intPart 0 false).map (fun n => (n : ℚ))
  | (intPart, some fracPart) =>
      let fracDigits := (fracPart.filter Char.isDigit).length
      match intPart, fracPart with
      | [], [] => Option.none
      | [], f =>
          (parseDigitsAux f 0 false).map
            (fun n => (n : ℚ) / (10 : ℚ) ^ fracDigits)
      | ip, [] => (parseDigitsAux ip 0 false).map (fun n => (n : ℚ))
      | ip, f =>
          match parseDigitsAux ip 0 false, parseDigitsAux f 0 false with
          | some a, some b => some ((a : ℚ) + (b : ℚ) / (10 : ℚ) ^ fracDigits)
          | _, _ => Option.none

/-- Model of Python `float(s)` on a string, restricted to finite decimal
notation with an optional exponent (the special values `inf`/`nan` are not
representable in the rational model and are mapped to `Option.none`; no
embedded code path feeds them in). -/
def pyFloatOfString (s : String) : Option ℚ :=
  let (sgn, cs) :=
    match (pyTrim s).data with
    | '+' :: rest => ((1 : ℚ), rest)
    | '-' :: rest => ((-1 : ℚ), rest)
    | cs0 => ((1 : ℚ), cs0)
  match splitExp cs with
  | (mant, Option.none) => (parseMantissa mant).map (fun m => sgn * m)
  | (mant, some ex) =>
      match parseMantissa mant, parseSignedInt ex with
      | some m, some e => some (sgn * m * (10 : ℚ) ^ e)
      | _, _ => Option.none

/-- Model of Python `float(value)`: `Option.none` models ValueError/TypeError. -/
def pyFloatOpt : PyVal → Option ℚ
  | .float q => some q
  | .int n => some (n : ℚ)
  | .bool b => some (if b then 1 else 0)
  | .str s => pyFloatOfString s
  | _ => Option.none

/-- Embedding of `CustomClassGenerator._convert_value_by_type` (identical in
src/models/custom_class.py lines 43-55 and src/core/class_generator.py lines
150-162). The second component of the result records the diagnostics the call
prints; the function body contains no print/log statement and its internal
`except (ValueError, TypeError)` clause silently returns the original value,
so this component is always empty. The caller `_setCustomObject` prints only
when a ValueError or AttributeError escapes this function, which the internal
`except` clause prevents for conversion failures. -/
def convertByTag (value : PyVal) (dt : String) : PyVal × List String :=
  if dt = "int" then
    match pyIntOpt value with
    | some n => (PyVal.int n, [])
    | Option.none => (value, [])
  else if dt = "float" then
    match pyFloatOpt value with
    | some qv => (PyVal.float qv, [])
    | Option.none => (value, [])
  else if dt = "bool" then
    match value with
    | PyVal.str s => (PyVal.bool (["true", "1", "yes", "t"].contains (pyLower s)), [])
    | v => (PyVal.bool (pyTruthy v), [])
  else if dt = "str" then (PyVal.str (pyStr value), [])
  else (value, [])

/-- Top of `_convert_value_by_type`: `if not datatype: return value`, then
`datatype = datatype.lower()` feeding the tag dispatch above. -/
def convertValueByType (value : PyVal) (datatype : String) : PyVal × List String :=
  if datatype = "" then (value, [])
  else convertByTag value (pyLower datatype)

/-- Geographic extent tagged union of metadata_schema.py: GeoExtentString,
GeoExtentPoint, GeoExtentBoundingbox, GeoExtentSurface. -/
inductive GeographicExtent : Type where
  | gstring (place_name description : String)
  | gpoint (lat lon : ℚ)
  | gbbox (north west south east : ℚ)
  | gsurface (wkt : String)

/-- `to_dict` of each geographic extent class (metadata_schema.py lines 54-103);
the point and bounding-box variants generate a WKT string from their fields. -/
def geoToDict : GeographicExtent → Dict
  | .gstring p d => [("place_name", PyVal.str p), ("description", PyVal.str d)]
  | .gpoint la lo =>
      [("lat", PyVal.float la), ("lon", PyVal.float lo),
       ("wkt", PyVal.str ("POINT(" ++ pyFloatRepr lo ++ " " ++ pyFloatRepr la ++ ")"))]
  | .gbbox n w s e =>
      [("north", PyVal.float n), ("west", PyVal.float w),
       ("south", PyVal.float s), ("east", PyVal.float e),
       ("wkt", PyVal.str ("POLYGON((" ++ pyFloatRepr w ++ " " ++ pyFloatRepr n
         ++ ", " ++ pyFloatRepr e ++ " " ++ pyFloatRepr n
         ++ ", " ++ pyFloatRepr e ++ " " ++ pyFloatRepr s
         ++ ", " ++ pyFloatRepr w ++ " " ++ pyFloatRepr s
         ++ ", " ++ pyFloatRepr w ++ " " ++ pyFloatRepr n ++ "))"))]
  | .gsurface w => [("wkt", PyVal.str w)]

/-- Temporal extent tagged union of metadata_schema.py:
TemporalExtentBetaDistribution, TemporalExtentPeriod, TemporalExtentString,
TemporalExtentNumber. -/
inductive TemporalExtent : Type where
  | betaDist (description : String) (start_instant expected_instant end_instant : PyDateTime)
      (alpha beta : ℚ)
  | period (date_from date_expected date_to : PyDateTime) (description : String)
  | tstr (date_from date_expected date_to : String) (description : String)
  | tnum (date_from date_expected date_to : ℚ) (description : String)

/-- The `description` field carried by every temporal extent variant. -/
def TemporalExtent.description : TemporalExtent → String
  | .betaDist d _ _ _ _ _ => d
  | .period _ _ _ d => d
  | .tstr _ _ _ d => d
  | .tnum _ _ _ d => d

/-- `to_dict` of each temporal extent class (metadata_schema.py lines 122-176). -/
def tempToDict : TemporalExtent → Dict
  | .betaDist d s ex en a b =>
      [("description", PyVal.str d), ("start_instant", PyVal.dt s),
       ("expected_instant", PyVal.dt ex), ("end_instant", PyVal.dt en),
       ("alpha", PyVal.float a), ("beta", PyVal.float b)]
  | .period f ex t d =>
      [("date_from", PyVal.dt f), ("date_expected", PyVal.dt ex),
       ("date_to", PyVal.dt t), ("description", PyVal.str d)]
  | .tstr f ex t d =>
      [("date_from", PyVal.str f), ("date_expected", PyVal.str ex),
       ("date_to", PyVal.str t), ("description", PyVal.str d)]
  | .tnum f ex t d =>
      [("date_from", PyVal.float f), ("date_expected", PyVal.float ex),
       ("date_to", PyVal.float t), ("description", PyVal.str d)]

/-- Recursive EAV node `Attribute` of metadata_schema.py (line 186): id, key,
value, datatype, description, children. The id is passed explicitly here (the
Python default generates a fresh short uuid, a source of nondeterminism the
claims do not depend on). -/
inductive Attribute : Type where
  | mk (id key : String) (value : PyVal) (datatype description : String)
      (children : List Attribute)

/-- The `id` field of an Attribute. -/
def Attribute.id : Attribute → String
  | .mk i _ _ _ _ _ => i

/-- The `key` field of an Attribute. -/
def Attribute.key : Attribute → String
  | .mk _ k _ _ _ _ => k

/-- The `value` field of an Attribute. -/
def Attribute.value : Attribute → PyVal
  | .mk _ _ v _ _ _ => v

/-- The `datatype` field of an Attribute. -/
def Attribute.datatype : Attribute → String
  | .mk _ _ _ d _ _ => d

/-- The `description` field of an Attribute. -/
def Attribute.description : Attribute → String
  | .mk _ _ _ _ d _ => d

/-- The `children` field of an Attribute. -/
def Attribute.children : Attribute → List Attribute
  | .mk _ _ _ _ _ c => c

/-- Recursive namespace node `CustomClass` of metadata_schema.py (line 206):
id, classname, attributes, children. -/
inductive CustomClass : Type where
  | mk (id classname : String) (attributes : List Attribute)
      (children : List CustomClass)

/-- The `id` field of a CustomClass. -/
def CustomClass.id : CustomClass → String
  | .mk i _ _ _ => i

/-- The `classname` field of a CustomClass. -/
def CustomClass.classname : CustomClass → String
  | .mk _ c _ _ => c

/-- The `attributes` field of a CustomClass. -/
def CustomClass.attributes : CustomClass → List Attribute
  | .mk _ _ a _ => a

/-- The `children` field of a CustomClass. -/
def CustomClass.children : CustomClass → List CustomClass
  | .mk _ _ _ c => c

mutual

/-- `Attribute.to_dict` (metadata_schema.py lines 195-204): serializes the node
and, recursively, its children under the `children` key. -/
def attrToDict : Attribute → Dict
  | .mk i k v dtype descr children =>
      [("id", PyVal.str i), ("key", PyVal.str k), ("value", v),
       ("datatype", PyVal.str dtype), ("description", PyVal.str descr),
       ("children", PyVal.list (attrToDictList children))]

/-- `to_dict` of each element of an attribute list. -/
def attrToDictList : List Attribute → List PyVal
  | [] => []
  | a :: rest => PyVal.dict (attrToDict a) :: attrToDictList rest

end

mutual

/-- `CustomClass.to_dict` (metadata_schema.py lines 216-222). -/
def ccToDict : CustomClass → Dict
  | .mk i cname attrs children =>
      [("id", PyVal.str i), ("classname", PyVal.str cname),
       ("attributes", PyVal.list (attrToDictList attrs)),
       ("children", PyVal.list (ccToDictList children))]

/-- `to_dict` of each element of a CustomClass child list. -/
def ccToDictList : List CustomClass → List PyVal
  | [] => []
  | c :: rest => PyVal.dict (ccToDict c) :: ccToDictList rest

end

/-- The value stored for an attribute by the flattening engine
(metadata_schema.py lines 447-451): a str/int/float/bool scalar is stored
as-is, anything else is stored as its `str(...)` serialization. -/
def flatValue (v : PyVal) : PyVal :=
  match v with
  | PyVal.str s => PyVal.str s
  | PyVal.int n => PyVal.int n
  | PyVal.float q => PyVal.float q
  | PyVal.bool b => PyVal.bool b
  | other => PyVal.str (pyStr other)

mutual

/-- Embedding of `ContentsMetadata._flatten_custom_class_recursive`
(metadata_schema.py lines 429-455): appends the classname to the path stack,
stores each attribute under `path/attr.key` (a plain dict assignment, so a
duplicate key silently overwrites), then recurses into the child classes. -/
def flattenCC : CustomClass → Dict → List String → Dict
  | .mk _ cname attrs children, target, pathStack =>
      let currentPath := pathStack ++ [cname]
      let pathKey := String.intercalate "/" currentPath
      let afterAttrs :=
        attrs.foldl
          (fun d a => dictSet d (pathKey ++ "/" ++ a.key) (flatValue a.value))
          target
      flattenCCList children afterAttrs currentPath

/-- The `for child in c_class.children` loop of the flattening recursion. -/
def flattenCCList : List CustomClass → Dict → List String → Dict
  | [], d, _ => d
  | c :: rest, d, p => flattenCCList rest (flattenCC c d p) p

end

mutual

/-- Total number of attributes in a CustomClass tree (the Σ Ai of the claims). -/
def attrCount : CustomClass → Nat
  | .mk _ _ attrs children => attrs.length + attrCountList children

/-- Total number of attributes in a list of CustomClass trees. -/
def attrCountList : List CustomClass → Nat
  | [] => 0
  | c :: rest => attrCount c + attrCountList rest

end

mutual

/-- Specification-side flattening rule, written from the spec wording (§4.3
rule 6): for every tree node, path is the `/`-joined sequence of ancestor
classnames including the node itself; for every Attribute on that node the
flat key is `path/attribute.key`; the value is the attribute's scalar value if
scalar, else its canonical string serialization; children follow depth-first. -/
def specPairs : CustomClass → List String → List (String × PyVal)
  | .mk _ cname attrs children, stack =>
      let path := String.intercalate "/" (stack ++ [cname])
      attrs.map (fun a => (path ++ "/" ++ a.key, flatValue a.value))
        ++ specPairsList children (stack ++ [cname])

/-- Specification-side flattening of a list of sibling nodes. -/
def specPairsList : List CustomClass → List String → List (String × PyVal)
  | [], _ => []
  | c :: rest, stack => specPairs c stack ++ specPairsList rest stack

end

/-- The flat keys produced by the specification-side flattening rule. -/
def flatKeys (c : CustomClass) (stack : List String) : List String :=
  (specPairs c stack).map Prod.fst

/-- `SourceMetadata` of metadata_schema.py (line 224). The extent fields are
typed `Optional[Any]` in the source and are only ever populated with extent
variants (checked by `isinstance` at use sites); `Option` models `None`. -/
structure SourceMetadata where
  id : String
  citation_id : String
  reference_system_id : String
  additional_temporal_extent : Option TemporalExtent
  additional_geographic_extent : Option GeographicExtent

/-- `SourceMetadata.to_dict` (metadata_schema.py lines 232-242): an extent that
is a BaseEntity is serialized via its `to_dict`. -/
def srcToDict (s : SourceMetadata) : Dict :=
  [("id", PyVal.str s.id),
   ("citation_id", PyVal.str s.citation_id),
   ("reference_system_id", PyVal.str s.reference_system_id),
   ("additional_temporal_extent",
     match s.additional_temporal_extent with
     | some te => PyVal.dict (tempToDict te)
     | Option.none => PyVal.none),
   ("additional_geographic_extent",
     match s.additional_geographic_extent with
     | some ge => PyVal.dict (geoToDict ge)
     | Option.none => PyVal.none)]

/-- `BaseEntity.as_json(indent=None)` applied to a SourceMetadata. -/
def srcAsJson (s : SourceMetadata) : String :=
  jsonDumps (PyVal.dict (srcToDict s))

/-- Embedding of `SourceMetadata.to_collection_metadata` (metadata_schema.py
lines 244-306), including the source's asymmetry: the TemporalExtentPeriod
branch (lines 282-286) writes the keys `temp_type`/`temp_period_from`/
`temp_period_expected`/`temp_period_to` without the `src_` prefix used by
every other extent branch. -/
def toCollectionMetadata (s : SourceMetadata) : Dict :=
  let meta : Dict :=
    [("source_id", PyVal.str s.id),
     ("citation_id", PyVal.str s.citation_id),
     ("reference_system", PyVal.str s.reference_system_id),
     ("structured", PyVal.str (srcAsJson s))]
  let meta :=
    match s.additional_geographic_extent with
    | Option.none => meta
    | some (GeographicExtent.gstring p _) =>
        dictSet (dictSet meta "src_geo_type" (PyVal.str "string"))
          "src_geo_place" (PyVal.str p)
    | some (GeographicExtent.gpoint la lo) =>
        dictSet (dictSet (dictSet meta "src_geo_type" (PyVal.str "point"))
          "src_geo_lat" (PyVal.float la)) "src_geo_lon" (PyVal.float lo)
    | some (GeographicExtent.gbbox n w so e) =>
        dictSet (dictSet (dictSet (dictSet (dictSet meta
          "src_geo_type" (PyVal.str "bbox"))
          "src_geo_north" (PyVal.float n))
          "src_geo_west" (PyVal.float w))
          "src_geo_south" (PyVal.float so))
          "src_geo_east" (PyVal.float e)
    | some (GeographicExtent.gsurface w) =>
        dictSet (dictSet meta "src_geo_type" (PyVal.str "surface"))
          "src_geo_wkt" (PyVal.str w)
  match s.additional_temporal_extent with
  | Option.none => meta
  | some (TemporalExtent.period f ex t _) =>
      dictSet (dictSet (dictSet (dictSet meta
        "temp_type" (PyVal.str "period"))
        "temp_period_from" (PyVal.float f.ts))
        "temp_period_expected" (PyVal.float ex.ts))
        "temp_period_to" (PyVal.float t.ts)
  | some (TemporalExtent.tstr f ex t _) =>
      dictSet (dictSet (dictSet (dictSet meta
        "src_temp_type" (PyVal.str "string"))
        "src_temp_str_from" (PyVal.str f))
        "src_temp_str_expected" (PyVal.str ex))
        "src_temp_str_to" (PyVal.str t)
  | some (TemporalExtent.tnum f ex t _) =>
      dictSet (dictSet (dictSet (dictSet meta
        "src_temp_type" (PyVal.str "number"))
        "src_temp_num_from" (PyVal.float f))
        "src_temp_num_expected" (PyVal.float ex))
        "src_temp_num_to" (PyVal.float t)
  | some (TemporalExtent.betaDist _ st ex en _ _) =>
      dictSet (dictSet (dictSet (dictSet meta
        "src_temp_type" (PyVal.str "distribution"))
        "src_temp_start" (PyVal.str st.iso))
        "src_temp_expected" (PyVal.str ex.iso))
        "src_temp_end" (PyVal.str en.iso)

/-- `ContentsMetadata` of metadata_schema.py (line 308). The five scalar
fields are typed PyVal because the source is dynamically typed and the claims
quantify over `None` occurrences in them. -/
structure ContentsMetadata where
  id : PyVal
  title : PyVal
  reference : PyVal
  abstract : PyVal
  topic_category : PyVal
  keyword_ids : List String
  geographic_extent : Option GeographicExtent
  temporal_extent : Option TemporalExtent
  custom_class_root : Option CustomClass

/-- `ContentsMetadata.to_dict` (metadata_schema.py lines 330-344); when a
custom class root exists it is embedded under the key `class: {classname}`. -/
def contToDict (c : ContentsMetadata) : Dict :=
  [("id", c.id), ("title", c.title), ("reference", c.reference),
   ("abstract", c.abstract), ("topic_category", c.topic_category),
   ("keyword_ids", PyVal.list (c.keyword_ids.map PyVal.str)),
   ("geographic_extent",
     match c.geographic_extent with
     | some ge => PyVal.dict (geoToDict ge)
     | Option.none => PyVal.none),
   ("temporal_extent",
     match c.temporal_extent with
     | some te => PyVal.dict (tempToDict te)
     | Option.none => PyVal.none)]
  ++ (match c.custom_class_root with
      | some root => [("class: " ++ root.classname, PyVal.dict (ccToDict root))]
      | Option.none => [])

/-- `BaseEntity.as_json(indent=None)` applied to a ContentsMetadata. -/
def contAsJson (c : ContentsMetadata) : String :=
  jsonDumps (PyVal.dict (contToDict c))

/-- The initial `flat_meta` dict literal of `to_searchable_metadata`
(metadata_schema.py lines 348-355): note that `title` is not among the copied
fields and that no `None` value is replaced. -/
def contBase (c : ContentsMetadata) : Dict :=
  [("id", c.id), ("reference", c.reference), ("abstract", c.abstract),
   ("topic_category", c.topic_category),
   ("keywords_str", PyVal.str (String.intercalate "," c.keyword_ids)),
   ("structured", PyVal.str (contAsJson c))]

/-- The geographic-extent section of `to_searchable_metadata`
(metadata_schema.py lines 357-382): first `geo_wkt` when the variant's
`to_dict` carries a `wkt`, then the variant-specific keys. -/
def geoSection (ge : GeographicExtent) (flat : Dict) : Dict :=
  let ged := geoToDict ge
  let flat :=
    match dictGet ged "wkt" with
    | some w => dictSet flat "geo_wkt" w
    | Option.none => flat
  match ge with
  | .gstring p _ =>
      dictSet (dictSet flat "geo_type" (PyVal.str "string"))
        "geo_place" (PyVal.str p)
  | .gpoint la lo =>
      dictSet (dictSet (dictSet flat "geo_type" (PyVal.str "point"))
        "geo_lat" (PyVal.float la)) "geo_lon" (PyVal.float lo)
  | .gbbox n w so e =>
      dictSet (dictSet (dictSet (dictSet (dictSet flat
        "geo_type" (PyVal.str "bbox"))
        "geo_north" (PyVal.float n))
        "geo_west" (PyVal.float w))
        "geo_south" (PyVal.float so))
        "geo_east" (PyVal.float e)
  | .gsurface _ => dictSet flat "geo_type" (PyVal.str "surface")

/-- The temporal-extent section of `to_searchable_metadata`
(metadata_schema.py lines 384-421): `temp_desc` when the description is
truthy, then the variant-specific keys. -/
def tempSection (te : TemporalExtent) (flat : Dict) : Dict :=
  let flat :=
    if te.description ≠ "" then dictSet flat "temp_desc" (PyVal.str te.description)
    else flat
  match te with
  | .period f ex t _ =>
      dictSet (dictSet (dictSet (dictSet flat
        "temp_type" (PyVal.str "period"))
        "temp_period_from" (PyVal.float f.ts))
        "temp_period_expected" (PyVal.float ex.ts))
        "temp_period_to" (PyVal.float t.ts)
  | .tstr f ex t _ =>
      dictSet (dictSet (dictSet (dictSet flat
        "temp_type" (PyVal.str "string"))
        "temp_str_from" (PyVal.str f))
        "temp_str_expected" (PyVal.str ex))
        "temp_str_to" (PyVal.str t)
  | .tnum f ex t _ =>
      dictSet (dictSet (dictSet (dictSet flat
        "temp_type" (PyVal.str "number"))
        "temp_num_from" (PyVal.float f))
        "temp_num_expected" (PyVal.float ex))
        "temp_num_to" (PyVal.float t)
  | .betaDist _ st ex en a b =>
      dictSet (dictSet (dictSet (dictSet (dictSet (dictSet flat
        "temp_type" (PyVal.str "distribution"))
        "temp_dist_start" (PyVal.str st.iso))
        "temp_dist_expected" (PyVal.str ex.iso))
        "temp_dist_end" (PyVal.str en.iso))
        "temp_dist_alpha" (PyVal.float a))
        "temp_dist_beta" (PyVal.float b)

/-- Embedding of `ContentsMetadata.to_searchable_metadata` (metadata_schema.py
lines 346-427): base fields, then the geographic section, then the temporal
section, then the recursive custom-class flattening. -/
def toSearchableMetadata (c : ContentsMetadata) : Dict :=
  let flat := contBase c
  let flat :=
    match c.geographic_extent with
    | some ge => geoSection ge flat
    | Option.none => flat
  let flat :=
    match c.temporal_extent with
    | some te => tempSection te flat
    | Option.none => flat
  match c.custom_class_root with
  | some root => flattenCC root flat []
  | Option.none => flat

/-- Caller-visible outcome of `ChromaRepository.upsert_chunks`: the method can
return normally after skipping (empty input), after a successful upsert, or
after its blanket `except Exception` handler logged and printed an error; it
could only surface an exception if one escaped that handler (`raised`). -/
inductive UpsertOutcome : Type where
  | skipped
  | upserted (n : Nat)
  | errorLogged (msg : String)
  | raised (msg : String)
deriving DecidableEq, Repr

/-- Whether the outcome is an exception surfacing to the caller. -/
def UpsertOutcome.isRaised : UpsertOutcome → Bool
  | .raised _ => true
  | _ => false

/-- The length-mismatch message built by `upsert_chunks` (chroma.py line 189). -/
def lengthMismatchMsg (c m i : Nat) : String :=
  "Chunks (" ++ toString c ++ "), Metadatas (" ++ toString m ++ "), and IDs ("
    ++ toString i ++ ") lists must have the same length."

/-- The `try` block of `ChromaRepository.upsert_chunks` (chroma.py lines
183-197): empty chunks short-circuit to a logged skip; a length mismatch
raises ValueError; otherwise the chunks are upserted (the external
`collection.upsert` round trip is modeled as succeeding — its own failures
would land in the same handler and are not the subject of any claim). -/
def upsertChunksTry (chunks : List String) (metadatas : List Dict)
    (ids : List String) : Except String UpsertOutcome :=
  if chunks.isEmpty then Except.ok UpsertOutcome.skipped
  else if ¬(chunks.length = metadatas.length ∧ metadatas.length = ids.length) then
    Except.error (lengthMismatchMsg chunks.length metadatas.length ids.length)
  else Except.ok (UpsertOutcome.upserted chunks.length)

/-- Embedding of `ChromaRepository.upsert_chunks` (chroma.py lines 174-201):
the whole body sits inside `try ... except Exception`, whose handler logs the
error, prints it, and returns normally — no exception reaches the caller. -/
def upsertChunks (chunks : List String) (metadatas : List Dict)
    (ids : List String) : UpsertOutcome :=
  match upsertChunksTry chunks metadatas ids with
  | Except.ok o => o
  | Except.error msg => UpsertOutcome.errorLogged msg

/-- Caller-visible outcome of `ChromaRepository.delete_chunks`: either the
initial validation raises to the caller, or the deletion is attempted (errors
of the external `collection.delete` call are caught and logged inside). -/
inductive DeleteOutcome : Type where
  | raised (msg : String)
  | attempted
deriving DecidableEq, Repr

/-- The validation message of `delete_chunks` (chroma.py line 212). -/
def deleteValidationMsg : String :=
  "Failed to delete: At least one of " ++ "\x27" ++ "ids" ++ "\x27" ++ " or "
    ++ "\x27" ++ "where" ++ "\x27" ++ " must be provided."

/-- Embedding of `ChromaRepository.delete_chunks` (chroma.py lines 203-230):
the `ids is None and where is None` check sits before the `try` block, so its
ValueError propagates to the caller; everything after it is inside
`try ... except`, which swallows store-side errors. -/
def deleteChunks (ids : Option (List String)) (whereFilter : Option Dict) :
    DeleteOutcome :=
  if ids.isNone && whereFilter.isNone then
    DeleteOutcome.raised deleteValidationMsg
  else DeleteOutcome.attempted

namespace PrologRepo

/-- Geographic extent union of metadata_repository.py (lines 17-28), the
revision the consistency checker imports: GeoExtentDescription,
GeoExtentPoint, GeoExtentSurface. -/
inductive PGeo : Type where
  | description (d : String)
  | point (lat lon : ℚ)
  | surface (wkt : String)

/-- Temporal extent union of metadata_repository.py (lines 33-44):
TemporalExtentBetaDistribution, TemporalExtentInstant. -/
inductive PTemp : Type where
  | betaDist (description : String) (start_instant end_instant : PyDateTime)
      (alpha beta : ℚ)
  | instant (i : PyDateTime)

/-- `SourceMetadata` of metadata_repository.py (lines 81-92); the extent
fields are `Optional[Any]` and are interpolated into facts via `str(...)`. -/
structure PSource where
  id : String
  citation_id : String
  reference_system_id : String
  additional_temporal_extent : Option PyVal
  additional_geographic_extent : Option PyVal

/-- `ContentsMetadata` of metadata_repository.py (lines 94-114). -/
structure PContents where
  id : String
  abstract : String
  topic_category : String
  keyword_ids : List String
  geographic_extent : PGeo
  temporal_extent : PTemp
  custom_class_root : Option CustomClass

/-- `Metadata` of metadata_repository.py (lines 116-137): in this revision the
aggregate holds exactly one source and one contents record. -/
structure PMetadata where
  id : String
  datastamp : PyDateTime
  language : String
  contact_id : String
  source : PSource
  contents : PContents

mutual

/-- Embedding of `PrologRepository._convert_custom_class_to_facts`
(prolog.py lines 165-190): the `custom_class/2` fact for the node, then the
facts of its attributes, then the facts of its child classes. -/
def convertCC : CustomClass → List String
  | .mk cid cname attrs children =>
      ("custom_class(\x27" ++ cid ++ "\x27, \x27" ++ cname ++ "\x27)")
        :: (attrListFacts cid attrs ++ classChildFacts cid children)
termination_by c => (sizeOf c, 0)

/-- The `for attr in cclass.attributes` loop of the fact conversion. -/
def attrListFacts : String → List Attribute → List String
  | _, [] => []
  | cid, a :: rest => attrFacts cid a ++ attrListFacts cid rest
termination_by _ l => (sizeOf l, 0)

/-- The facts emitted for one attribute of the class `cid` (prolog.py lines
173-182): `attribute/1`, `custom_class_attribute/2`, `attribute_value/5`,
then `attribute_child/2` plus a recursive conversion for each child. -/
def attrFacts : String → Attribute → List String
  | cid, .mk aid key value dtype descr children =>
      ["attribute(\x27" ++ aid ++ "\x27)",
       "custom_class_attribute(\x27" ++ cid ++ "\x27, \x27" ++ aid ++ "\x27)",
       "attribute_value(\x27" ++ aid ++ "\x27, \x27" ++ key ++ "\x27, \x27"
         ++ pyStr value ++ "\x27, \x27" ++ dtype ++ "\x27, \x27" ++ descr ++ "\x27)"]
        ++ attrChildFacts aid children
termination_by _ a => (sizeOf a, 0)

/-- The `for child_attr in attr.children` loop of the fact conversion. -/
def attrChildFacts : String → List Attribute → List String
  | _, [] => []
  | aid, ch :: rest =>
      ("attribute_child(\x27" ++ aid ++ "\x27, \x27" ++ ch.id ++ "\x27)")
        :: (wrapperFacts ch ++ attrChildFacts aid rest)
termination_by _ l => (sizeOf l, 0)

/-- The recursive call on the throwaway wrapper class the source synthesizes
around a child attribute: `_convert_custom_class_to_facts(CustomClass(
id=f"attr_child_{child_attr.id}", classname="child_attr_wrapper",
attributes=[child_attr]))`, written out here so that the recursion is
structural (the lemma `wrapperFacts_eq_convertCC` below checks that this
equals `convertCC` applied to that wrapper class). -/
def wrapperFacts : Attribute → List String
  | a =>
      ("custom_class(\x27attr_child_" ++ a.id ++ "\x27, \x27child_attr_wrapper\x27)")
        :: (attrFacts ("attr_child_" ++ a.id) a ++ [])
termination_by a => (sizeOf a, 1)

/-- The `for child_class in cclass.children` loop of the fact conversion. -/
def classChildFacts : String → List CustomClass → List String
  | _, [] => []
  | cid, ch :: rest =>
      ("custom_class_child(\x27" ++ cid ++ "\x27, \x27" ++ ch.id ++ "\x27)")
        :: (convertCC ch ++ classChildFacts cid rest)
termination_by _ l => (sizeOf l, 0)

end

/-- The final escaping step of `convert_metadata_to_facts` (prolog.py line
163): `f.replace("'", "\\'")` — every apostrophe in the fact string, the
fact-syntax quote delimiters included, is prefixed with a backslash. -/
def escapeQuotes (f : String) : String :=
  String.mk (f.data.foldr
    (fun ch acc => if ch = '\x27' then '\x5c' :: '\x27' :: acc else ch :: acc) [])

/-- Embedding of `PrologRepository.convert_metadata_to_facts` (prolog.py lines
98-163): builds the ordered fact list for the aggregate, then applies the
quote-escaping step to every fact. -/
def convertMetadataToFacts (m : PMetadata) : List String :=
  let facts : List String :=
    ["metadata(\x27" ++ m.id ++ "\x27)",
     "metadata_attribute(\x27" ++ m.id ++ "\x27, id, \x27" ++ m.id ++ "\x27)",
     "metadata_attribute(\x27" ++ m.id ++ "\x27, datastamp, \x27"
       ++ m.datastamp.iso ++ "\x27)",
     "metadata_attribute(\x27" ++ m.id ++ "\x27, language, \x27"
       ++ m.language ++ "\x27)",
     "metadata_contact(\x27" ++ m.id ++ "\x27, \x27" ++ m.contact_id ++ "\x27)"]
  let src := m.source
  let facts := facts ++
    ["sourceMetadata(\x27" ++ src.id ++ "\x27)",
     "aggregates_source(\x27" ++ m.id ++ "\x27, \x27" ++ src.id ++ "\x27)",
     "has_citation(\x27" ++ src.id ++ "\x27, \x27" ++ src.citation_id ++ "\x27)",
     "has_reference_system(\x27" ++ src.id ++ "\x27, \x27"
       ++ src.reference_system_id ++ "\x27)"]
  let facts := facts ++
    (match src.additional_temporal_extent with
     | some v =>
         if pyTruthy v then
           ["source_attribute(\x27" ++ src.id ++ "\x27, additional_temporal_extent, \x27"
             ++ pyStr v ++ "\x27)"]
         else []
     | Option.none => [])
  let facts := facts ++
    (match src.additional_geographic_extent with
     | some v =>
         if pyTruthy v then
           ["source_attribute(\x27" ++ src.id ++ "\x27, additional_geographic_extent, \x27"
             ++ pyStr v ++ "\x27)"]
         else []
     | Option.none => [])
  let cont := m.contents
  let facts := facts ++
    ["contentsMetadata(\x27" ++ cont.id ++ "\x27)",
     "composes_contents(\x27" ++ m.id ++ "\x27, \x27" ++ cont.id ++ "\x27)",
     "contents_attribute(\x27" ++ cont.id ++ "\x27, abstract, \x27"
       ++ cont.abstract ++ "\x27)",
     "contents_attribute(\x27" ++ cont.id ++ "\x27, topicCategory, \x27"
       ++ cont.topic_category ++ "\x27)"]
  let facts := facts ++
    cont.keyword_ids.map
      (fun kw => "has_keyword(\x27" ++ cont.id ++ "\x27, \x27" ++ kw ++ "\x27)")
  let geoId := "geo_" ++ cont.id
  let facts := facts ++
    ["has_geographic_extent(\x27" ++ cont.id ++ "\x27, \x27" ++ geoId ++ "\x27)"]
  let facts := facts ++
    (match cont.geographic_extent with
     | PGeo.description d =>
         ["geographic_extent_is_description(\x27" ++ geoId ++ "\x27, \x27" ++ d ++ "\x27)"]
     | PGeo.point la lo =>
         ["geographic_extent_is_point(\x27" ++ geoId ++ "\x27, point(\x27"
           ++ pyFloatRepr la ++ "\x27, \x27" ++ pyFloatRepr lo ++ "\x27))"]
     | PGeo.surface w =>
         ["geographic_extent_is_surface(\x27" ++ geoId ++ "\x27, \x27" ++ w ++ "\x27)"])
  let tempId := "temp_" ++ cont.id
  let facts := facts ++
    ["has_temporal_extent(\x27" ++ cont.id ++ "\x27, \x27" ++ tempId ++ "\x27)"]
  let facts := facts ++
    (match cont.temporal_extent with
     | PTemp.instant i =>
         ["temporal_extent_is_instant(\x27" ++ tempId ++ "\x27, \x27" ++ i.iso ++ "\x27)"]
     | PTemp.betaDist d st en a b =>
         ["temporal_extent_is_beta_distribution(\x27" ++ tempId ++ "\x27)",
          "beta_dist_universe(\x27" ++ tempId ++ "\x27, \x27" ++ st.iso ++ "\x27, \x27"
            ++ en.iso ++ "\x27)",
          "beta_dist_params(\x27" ++ tempId ++ "\x27, " ++ pyFloatRepr a ++ ", "
            ++ pyFloatRepr b ++ ")",
          "beta_dist_description(\x27" ++ tempId ++ "\x27, \x27" ++ d ++ "\x27)"])
  let facts := facts ++
    (match cont.custom_class_root with
     | some root =>
         ("aggregates_custom(\x27" ++ cont.id ++ "\x27, \x27" ++ root.id ++ "\x27)")
           :: convertCC root
     | Option.none => [])
  facts.map escapeQuotes

end PrologRepo

/-- Left fold of dict assignments over a list of bindings. -/
def foldlSet (d : Dict) (ts : List (String × PyVal)) : Dict :=
  ts.foldl (fun a kv => dictSet a kv.1 kv.2) d

/-- Every key the geographic section of `to_searchable_metadata` may write. -/
def geoSectionKeys : List String :=
  ["geo_wkt", "geo_type", "geo_place", "geo_lat", "geo_lon",
   "geo_north", "geo_west", "geo_south", "geo_east"]

/-- Every key the temporal section of `to_searchable_metadata` may write. -/
def tempSectionKeys : List String :=
  ["temp_desc", "temp_type", "temp_period_from", "temp_period_expected",
   "temp_period_to", "temp_str_from", "temp_str_expected", "temp_str_to",
   "temp_num_from", "temp_num_expected", "temp_num_to", "temp_dist_start",
   "temp_dist_expected", "temp_dist_end", "temp_dist_alpha", "temp_dist_beta"]

/-- Concrete attribute tree: CustomClass Vessel with attribute tonnage=500
(datatype int) and child class Engine with attribute power="250" (a string
value carrying datatype tag int), as in the spec scenario. -/
def exVessel : CustomClass :=
  CustomClass.mk "cc1" "Vessel"
    [Attribute.mk "a1" "tonnage" (PyVal.int 500) "int" "" []]
    [CustomClass.mk "cc2" "Engine"
      [Attribute.mk "a2" "power" (PyVal.str "250") "int" "" []] []]

/-- Concrete attribute tree whose two attributes collide on the same key. -/
def exDupClass : CustomClass :=
  CustomClass.mk "cc3" "X"
    [Attribute.mk "a3" "k" (PyVal.int 1) "int" "" [],
     Attribute.mk "a4" "k" (PyVal.int 2) "int" "" []] []

/-- Concrete ContentsMetadata with the point extent of the spec scenario,
GeoExtentPoint(lat=35.0, lon=139.0). -/
def exPointContents : ContentsMetadata :=
  ContentsMetadata.mk (PyVal.str "cont_1") (PyVal.str "Title")
    (PyVal.str "ref") (PyVal.str "abs") (PyVal.str "topic") ["kw1", "kw2"]
    (some (GeographicExtent.gpoint 35 139)) Option.none Option.none

/-- Concrete ContentsMetadata with a non-empty title and a None abstract. -/
def exTitledContents : ContentsMetadata :=
  ContentsMetadata.mk (PyVal.str "cont_2") (PyVal.str "A Title")
    (PyVal.str "r2") PyVal.none (PyVal.str "t2") ["k1"]
    Option.none Option.none Option.none

/-- Concrete SourceMetadata whose additional temporal extent is a
TemporalExtentPeriod. -/
def exPeriodSource : SourceMetadata :=
  SourceMetadata.mk "src_1" "cit_1" "rs_1"
    (some (TemporalExtent.period
      (PyDateTime.mk "2020-01-01T00:00:00" 1577836800)
      (PyDateTime.mk "2020-06-01T00:00:00" 1590969600)
      (PyDateTime.mk "2021-01-01T00:00:00" 1609459200)
      "a period"))
    Option.none

/-- Concrete consistency-checker aggregate with plain identifiers. -/
def exPMeta : PrologRepo.PMetadata :=
  PrologRepo.PMetadata.mk "m1" (PyDateTime.mk "2024-01-01T00:00:00" 1704067200)
    "jpn" "ct1"
    (PrologRepo.PSource.mk "s1" "c1" "r1" Option.none Option.none)
    (PrologRepo.PContents.mk "k1" "ab" "tc" ["kw1"]
      (PrologRepo.PGeo.description "place")
      (PrologRepo.PTemp.instant (PyDateTime.mk "2024-01-02T00:00:00" 1704153600))
      Option.none)

theorem dictGet_dictSet_self (d : Dict) (k : String) (v : PyVal) :
    dictGet (dictSet d k v) k = some v := by
  induction d with
  | nil => simp [dictSet, dictGet]
  | cons kv rest ih =>
      obtain ⟨k1, v1⟩ := kv
      by_cases h : k1 = k
      · subst h; simp [dictSet, dictGet]
      · simp [dictSet, dictGet, h, ih]

theorem dictGet_dictSet_ne (d : Dict) (k k2 : String) (v : PyVal)
    (h : k ≠ k2) : dictGet (dictSet d k v) k2 = dictGet d k2 := by
  induction d with
  | nil => simp [dictSet, dictGet, h]
  | cons kv rest ih =>
      obtain ⟨k1, v1⟩ := kv
      by_cases h1 : k1 = k
      · subst h1; simp [dictSet, dictGet, h]
      · simp [dictSet, dictGet, h1, ih]

theorem dictSet_append_of_none (d : Dict) (k : String) (v : PyVal)
    (h : dictGet d k = Option.none) : dictSet d k v = d ++ [(k, v)] := by
  induction d with
  | nil => simp [dictSet]
  | cons kv rest ih =>
      obtain ⟨k1, v1⟩ := kv
      by_cases h1 : k1 = k
      · simp [dictGet, h1] at h
      · simp only [dictGet, h1, if_false] at h
        simp [dictSet, h1, ih h]

theorem dictGet_append (d1 d2 : Dict) (k : String) :
    dictGet (d1 ++ d2) k =
      (match dictGet d1 k with
       | some v => some v
       | Option.none => dictGet d2 k) := by
  induction d1 with
  | nil => simp [dictGet]
  | cons kv rest ih =>
      obtain ⟨k1, v1⟩ := kv
      by_cases h : k1 = k <;> simp [dictGet, h, ih]

theorem foldlSet_nil (d : Dict) : foldlSet d [] = d := rfl

theorem foldlSet_cons (d : Dict) (kv : String × PyVal) (ts : List (String × PyVal)) :
    foldlSet d (kv :: ts) = foldlSet (dictSet d kv.1 kv.2) ts := rfl

theorem foldlSet_append (d : Dict) (ts1 ts2 : List (String × PyVal)) :
    foldlSet d (ts1 ++ ts2) = foldlSet (foldlSet d ts1) ts2 := by
  simp [foldlSet, List.foldl_append]

theorem dictGet_foldlSet_ne (ts : List (String × PyVal)) (d : Dict) (k : String)
    (h : ∀ kv ∈ ts, kv.1 ≠ k) :
    dictGet (foldlSet d ts) k = dictGet d k := by
  induction ts generalizing d with
  | nil => rfl
  | cons kv rest ih =>
      rw [foldlSet_cons, ih _ (fun kv2 hm => h kv2 (List.mem_cons_of_mem _ hm)),
        dictGet_dictSet_ne _ _ _ _ (h kv (List.mem_cons_self _ _))]

theorem foldlSet_fresh (ts : List (String × PyVal)) (d : Dict)
    (hfresh : ∀ kv ∈ ts, dictGet d kv.1 = Option.none)
    (hnodup : (ts.map Prod.fst).Nodup) :
    foldlSet d ts = d ++ ts := by
  induction ts generalizing d with
  | nil => simp [foldlSet]
  | cons kv rest ih =>
      obtain ⟨k, v⟩ := kv
      have h0 : dictGet d k = Option.none := hfresh (k, v) (List.mem_cons_self _ _)
      have hknotin : k ∉ rest.map Prod.fst := by
        simp only [List.map_cons, List.nodup_cons] at hnodup
        exact hnodup.1
      have hfresh2 : ∀ kv2 ∈ rest, dictGet (d ++ [(k, v)]) kv2.1 = Option.none := by
        intro kv2 hmem
        have hne : kv2.1 ≠ k := by
          intro he
          exact hknotin (he ▸ List.mem_map_of_mem Prod.fst hmem)
        rw [dictGet_append, hfresh kv2 (List.mem_cons_of_mem _ hmem)]
        simp only [dictGet]
        rw [if_neg (fun he => hne he.symm)]
      have hnodup2 : (rest.map Prod.fst).Nodup := by
        simp only [List.map_cons, List.nodup_cons] at hnodup
        exact hnodup.2
      rw [foldlSet_cons]
      simp only []
      rw [dictSet_append_of_none d k v h0, ih (d ++ [(k, v)]) hfresh2 hnodup2,
        List.append_assoc]
      rfl

theorem strData_append (s t : String) : (s ++ t).data = s.data ++ t.data := by
  cases s; cases t; rfl

theorem slash_mem_pathKey (p s : String) : '/' ∈ (p ++ "/" ++ s).data := by
  rw [strData_append, strData_append]
  exact List.mem_append_left _ (List.mem_append_right _ (List.mem_singleton.mpr rfl))

mutual

theorem flattenCC_eq (c : CustomClass) (d : Dict) (stack : List String) :
    flattenCC c d stack = foldlSet d (specPairs c stack) := by
  cases c with
  | mk i cn attrs ch =>
      simp only [flattenCC, specPairs]
      rw [foldlSet_append]
      rw [flattenCCList_eq ch _ (stack ++ [cn])]
      congr 1
      simp only [foldlSet, List.foldl_map]
termination_by (sizeOf c, 0)

theorem flattenCCList_eq (l : List CustomClass) (d : Dict) (stack : List String) :
    flattenCCList l d stack = foldlSet d (specPairsList l stack) := by
  cases l with
  | nil => rfl
  | cons c rest =>
      simp only [flattenCCList, specPairsList]
      rw [foldlSet_append, flattenCC_eq c d stack, flattenCCList_eq rest _ stack]
termination_by (sizeOf l, 0)

end

mutual

theorem specPairs_length (c : CustomClass) (stack : List String) :
    (specPairs c stack).length = attrCount c := by
  cases c with
  | mk i cn attrs ch =>
      simp only [specPairs, attrCount, List.length_append, List.length_map]
      rw [specPairsList_length ch (stack ++ [cn])]
termination_by (sizeOf c, 0)

theorem specPairsList_length (l : List CustomClass) (stack : List String) :
    (specPairsList l stack).length = attrCountList l := by
  cases l with
  | nil => rfl
  | cons c rest =>
      simp only [specPairsList, attrCountList, List.length_append]
      rw [specPairs_length c stack, specPairsList_length rest stack]
termination_by (sizeOf l, 0)

end

mutual

theorem specPairs_key_slash (c : CustomClass) (stack : List String) :
    ∀ kv ∈ specPairs c stack, '/' ∈ kv.1.data := by
  cases c with
  | mk i cn attrs ch =>
      intro kv hmem
      simp only [specPairs, List.mem_append] at hmem
      rcases hmem with hmem | hmem
      · obtain ⟨a, _, rfl⟩ := List.mem_map.mp hmem
        exact slash_mem_pathKey _ _
      · exact specPairsList_key_slash ch (stack ++ [cn]) kv hmem
termination_by (sizeOf c, 0)

theorem specPairsList_key_slash (l : List CustomClass) (stack : List String) :
    ∀ kv ∈ specPairsList l stack, '/' ∈ kv.1.data := by
  cases l with
  | nil => intro kv hmem; cases hmem
  | cons c rest =>
      intro kv hmem
      simp only [specPairsList, List.mem_append] at hmem
      rcases hmem with hmem | hmem
      · exact specPairs_key_slash c stack kv hmem
      · exact specPairsList_key_slash rest stack kv hmem
termination_by (sizeOf l, 0)

end

theorem flattenCC_preserve (c : CustomClass) (d : Dict) (stack : List String)
    (k : String) (h : '/' ∉ k.data) :
    dictGet (flattenCC c d stack) k = dictGet d k := by
  rw [flattenCC_eq]
  exact dictGet_foldlSet_ne _ _ _
    (fun kv hmem he => h (he ▸ specPairs_key_slash c stack kv hmem))

theorem ne_of_mem_not_mem (k s : String) (l : List String)
    (hs : s ∈ l) (h : k ∉ l) : s ≠ k :=
  fun he => h (he ▸ hs)

theorem geoSection_preserve (ge : GeographicExtent) (d : Dict) (k : String)
    (h : k ∉ geoSectionKeys) :
    dictGet (geoSection ge d) k = dictGet d k := by
  have hne : ∀ s ∈ geoSectionKeys, s ≠ k := fun s hs => ne_of_mem_not_mem k s _ hs h
  cases ge with
  | gstring p desc =>
      show dictGet (dictSet (dictSet d "geo_type" (PyVal.str "string"))
        "geo_place" (PyVal.str p)) k = dictGet d k
      rw [dictGet_dictSet_ne _ _ _ _ (hne "geo_place" (by decide)),
        dictGet_dictSet_ne _ _ _ _ (hne "geo_type" (by decide))]
  | gpoint la lo =>
      show dictGet (dictSet (dictSet (dictSet (dictSet d
        "geo_wkt" (PyVal.str ("POINT(" ++ pyFloatRepr lo ++ " " ++ pyFloatRepr la ++ ")")))
        "geo_type" (PyVal.str "point"))
        "geo_lat" (PyVal.float la)) "geo_lon" (PyVal.float lo)) k = dictGet d k
      rw [dictGet_dictSet_ne _ _ _ _ (hne "geo_lon" (by decide)),
        dictGet_dictSet_ne _ _ _ _ (hne "geo_lat" (by decide)),
        dictGet_dictSet_ne _ _ _ _ (hne "geo_type" (by decide)),
        dictGet_dictSet_ne _ _ _ _ (hne "geo_wkt" (by decide))]
  | gbbox n w so e =>
      show dictGet (dictSet (dictSet (dictSet (dictSet (dictSet (dictSet d
        "geo_wkt" (PyVal.str ("POLYGON((" ++ pyFloatRepr w ++ " " ++ pyFloatRepr n
          ++ ", " ++ pyFloatRepr e ++ " " ++ pyFloatRepr n
          ++ ", " ++ pyFloatRepr e ++ " " ++ pyFloatRepr so
          ++ ", " ++ pyFloatRepr w ++ " " ++ pyFloatRepr so
          ++ ", " ++ pyFloatRepr w ++ " " ++ pyFloatRepr n ++ "))")))
        "geo_type" (PyVal.str "bbox"))
        "geo_north" (PyVal.float n))
        "geo_west" (PyVal.float w))
        "geo_south" (PyVal.float so))
        "geo_east" (PyVal.float e)) k = dictGet d k
      rw [dictGet_dictSet_ne _ _ _ _ (hne "geo_east" (by decide)),
        dictGet_dictSet_ne _ _ _ _ (hne "geo_south" (by decide)),
        dictGet_dictSet_ne _ _ _ _ (hne "geo_west" (by decide)),
        dictGet_dictSet_ne _ _ _ _ (hne "geo_north" (by decide)),
        dictGet_dictSet_ne _ _ _ _ (hne "geo_type" (by decide)),
        dictGet_dictSet_ne _ _ _ _ (hne "geo_wkt" (by decide))]
  | gsurface w =>
      show dictGet (dictSet (dictSet d "geo_wkt" (PyVal.str w))
        "geo_type" (PyVal.str "surface")) k = dictGet d k
      rw [dictGet_dictSet_ne _ _ _ _ (hne "geo_type" (by decide)),
        dictGet_dictSet_ne _ _ _ _ (hne "geo_wkt" (by decide))]

theorem tempSection_preserve (te : TemporalExtent) (d : Dict) (k : String)
    (h : k ∉ tempSectionKeys) :
    dictGet (tempSection te d) k = dictGet d k := by
  have hne : ∀ s ∈ tempSectionKeys, s ≠ k := fun s hs => ne_of_mem_not_mem k s _ hs h
  have hdesc : ∀ d2 : Dict,
      dictGet (if te.description ≠ "" then dictSet d2 "temp_desc" (PyVal.str te.description) else d2) k
        = dictGet d2 k := by
    intro d2
    by_cases hd : te.description ≠ ""
    · rw [if_pos hd, dictGet_dictSet_ne _ _ _ _ (hne "temp_desc" (by decide))]
    · rw [if_neg hd]
  cases te with
  | period f ex t desc =>
      simp only [tempSection]
      rw [dictGet_dictSet_ne _ _ _ _ (hne "temp_period_to" (by decide)),
        dictGet_dictSet_ne _ _ _ _ (hne "temp_period_expected" (by decide)),
        dictGet_dictSet_ne _ _ _ _ (hne "temp_period_from" (by decide)),
        dictGet_dictSet_ne _ _ _ _ (hne "temp_type" (by decide))]
      exact hdesc d
  | tstr f ex t desc =>
      simp only [tempSection]
      rw [dictGet_dictSet_ne _ _ _ _ (hne "temp_str_to" (by decide)),
        dictGet_dictSet_ne _ _ _ _ (hne "temp_str_expected" (by decide)),
        dictGet_dictSet_ne _ _ _ _ (hne "temp_str_from" (by decide)),
        dictGet_dictSet_ne _ _ _ _ (hne "temp_type" (by decide))]
      exact hdesc d
  | tnum f ex t desc =>
      simp only [tempSection]
      rw [dictGet_dictSet_ne _ _ _ _ (hne "temp_num_to" (by decide)),
        dictGet_dictSet_ne _ _ _ _ (hne "temp_num_expected" (by decide)),
        dictGet_dictSet_ne _ _ _ _ (hne "temp_num_from" (by decide)),
        dictGet_dictSet_ne _ _ _ _ (hne "temp_type" (by decide))]
      exact hdesc d
  | betaDist desc st ex en a b =>
      simp only [tempSection]
      rw [dictGet_dictSet_ne _ _ _ _ (hne "temp_dist_beta" (by decide)),
        dictGet_dictSet_ne _ _ _ _ (hne "temp_dist_alpha" (by decide)),
        dictGet_dictSet_ne _ _ _ _ (hne "temp_dist_end" (by decide)),
        dictGet_dictSet_ne _ _ _ _ (hne "temp_dist_expected" (by decide)),
        dictGet_dictSet_ne _ _ _ _ (hne "temp_dist_start" (by decide)),
        dictGet_dictSet_ne _ _ _ _ (hne "temp_type" (by decide))]
      exact hdesc d

theorem searchable_base_get (c : ContentsMetadata) (k : String)
    (hg : k ∉ geoSectionKeys) (ht : k ∉ tempSectionKeys) (hs : '/' ∉ k.data) :
    dictGet (toSearchableMetadata c) k = dictGet (contBase c) k := by
  obtain ⟨ci, ct, cr, ca, ctc, ckw, cge, cte, ccc⟩ := c
  simp only [toSearchableMetadata]
  cases ccc <;> cases cte <;> cases cge <;>
    simp only [] <;>
    first
      | rfl
      | (try rw [flattenCC_preserve _ _ _ _ hs]) <;>
        (try rw [tempSection_preserve _ _ _ ht]) <;>
        (try rw [geoSection_preserve _ _ _ hg])

/-- C9: delete_chunks called with neither ids nor where raises the validation
error to the caller; whenever at least one of them is provided, no validation
error is raised (the check is the only raise that escapes the method: the
store round trip below it is wrapped in an exception handler). -/
theorem delete_chunks_requires_ids_or_where
    (ids : Option (List String)) (whereFilter : Option Dict) :
    deleteChunks ids whereFilter = DeleteOutcome.raised deleteValidationMsg ↔
      (ids = Option.none ∧ whereFilter = Option.none) := by
  cases ids <;> cases whereFilter <;> simp [deleteChunks]

/-- C10: for every non-string value coerced with datatype tag bool, the result
is Python truthiness bool(value) — 0 and 0.0 give false, any non-zero number
gives true — and the branch neither raises nor falls back to the original
value. -/
theorem convert_bool_nonstring_truthiness :
    (∀ n : Int, convertValueByType (PyVal.int n) "bool"
        = (PyVal.bool (decide (n ≠ 0)), [])) ∧
    (∀ q : ℚ, convertValueByType (PyVal.float q) "bool"
        = (PyVal.bool (decide (q ≠ 0)), [])) ∧
    (∀ b : Bool, convertValueByType (PyVal.bool b) "bool" = (PyVal.bool b, [])) ∧
    (convertValueByType PyVal.none "bool" = (PyVal.bool false, [])) ∧
    (∀ xs : List PyVal, convertValueByType (PyVal.list xs) "bool"
        = (PyVal.bool (!xs.isEmpty), [])) ∧
    (∀ kvs : List (String × PyVal), convertValueByType (PyVal.dict kvs) "bool"
        = (PyVal.bool (!kvs.isEmpty), [])) ∧
    (∀ d : PyDateTime, convertValueByType (PyVal.dt d) "bool"
        = (PyVal.bool true, [])) ∧
    convertValueByType (PyVal.int 0) "bool" = (PyVal.bool false, []) ∧
    convertValueByType (PyVal.float 0) "bool" = (PyVal.bool false, []) ∧
    convertValueByType (PyVal.int 5) "bool" = (PyVal.bool true, []) ∧
    convertValueByType (PyVal.float (5 / 2)) "bool" = (PyVal.bool true, []) := by
  refine ⟨fun n => rfl, fun q => rfl, fun b => rfl, rfl, fun xs => rfl,
    fun kvs => rfl, fun d => rfl, rfl, ?_, rfl, ?_⟩
  · have h0 : ¬((0 : ℚ) ≠ 0) := by norm_num
    simp [convertValueByType, convertByTag, pyTruthy, h0,
      show pyLower "bool" = "bool" from rfl]
  · have h52 : ((5 : ℚ) / 2) ≠ 0 := by norm_num
    simp [convertValueByType, convertByTag, pyTruthy, h52,
      show pyLower "bool" = "bool" from rfl]

/-- C1 (amended): an upsert_chunks call with non-empty chunks and mismatched
lengths raises a ValueError inside the method, but the surrounding blanket
exception handler catches it, logs and prints the message, and the call
returns normally without upserting; no exception reaches the caller. An empty
chunks list is a logged no-op. -/
theorem upsert_length_mismatch_logged_not_raised :
    (∀ (m : List Dict) (i : List String),
        upsertChunks [] m i = UpsertOutcome.skipped) ∧
    (∀ (c : List String) (m : List Dict) (i : List String),
        c ≠ [] → ¬(c.length = m.length ∧ m.length = i.length) →
        upsertChunksTry c m i
            = Except.error (lengthMismatchMsg c.length m.length i.length) ∧
          upsertChunks c m i
            = UpsertOutcome.errorLogged (lengthMismatchMsg c.length m.length i.length)) ∧
    (∀ (c : List String) (m : List Dict) (i : List String),
        (upsertChunks c m i).isRaised = false) := by
  refine ⟨fun m i => rfl, ?_, ?_⟩
  · intro c m i hc hlen
    have htry : upsertChunksTry c m i
        = Except.error (lengthMismatchMsg c.length m.length i.length) := by
      unfold upsertChunksTry
      rw [if_neg (fun hemp => hc (List.isEmpty_iff.mp hemp)), if_pos hlen]
    exact ⟨htry, by unfold upsertChunks; rw [htry]⟩
  · intro c m i
    unfold upsertChunks upsertChunksTry
    split_ifs <;> rfl

/-- C1 witness: the mismatch scenario of the spec, chunks/metadatas/ids of
lengths 2/1/2, hits the error-logging branch. -/
theorem upsert_length_mismatch_witness :
    upsertChunksTry ["a", "b"] [[]] ["1", "2"]
        = Except.error (lengthMismatchMsg 2 1 2) ∧
      upsertChunks ["a", "b"] [[]] ["1", "2"]
        = UpsertOutcome.errorLogged (lengthMismatchMsg 2 1 2) :=
  upsert_length_mismatch_logged_not_raised.2.1 ["a", "b"] [[]] ["1", "2"]
    (by decide) (by decide)

/-- C1 counterexample to the claim as stated: upsert_chunks with lengths 2/1/2
does not raise to the caller — the ValueError is swallowed by the handler and
the call returns normally with the error only logged. -/
theorem upsert_mismatch_reaches_no_caller :
    upsertChunks ["a", "b"] [[]] ["1", "2"]
        = UpsertOutcome.errorLogged (lengthMismatchMsg 2 1 2) ∧
      (upsertChunks ["a", "b"] [[]] ["1", "2"]).isRaised = false :=
  ⟨rfl, rfl⟩

/-- C4 (amended): type coercion is permissive and never raises — the function
is total. With tag int or float a failed parse retains the original
unconverted value, but silently: no diagnostic is emitted on any path (the
second component, which records printed diagnostics, is always empty; the
internal except clause returns the value without printing). With tag bool a
string converts to true exactly when its lower-casing is one of
true/1/yes/t; with tag str the value is stringified; with an unknown or empty
tag the value is returned unchanged. -/
theorem convert_value_permissive_silent :
    (convertValueByType (PyVal.str "abc") "int" = (PyVal.str "abc", [])) ∧
    (∀ v : PyVal, convertValueByType v "int"
        = ((match pyIntOpt v with
            | some n => PyVal.int n
            | Option.none => v), [])) ∧
    (∀ v : PyVal, convertValueByType v "float"
        = ((match pyFloatOpt v with
            | some q => PyVal.float q
            | Option.none => v), [])) ∧
    (∀ s : String, convertValueByType (PyVal.str s) "bool"
        = (PyVal.bool (decide (pyLower s ∈ (["true", "1", "yes", "t"] : List String))), [])) ∧
    (∀ v : PyVal, convertValueByType v "str" = (PyVal.str (pyStr v), [])) ∧
    (∀ v : PyVal, convertValueByType v "other" = (v, [])) ∧
    (∀ v : PyVal, convertValueByType v "" = (v, [])) ∧
    (∀ (v : PyVal) (datatype : String), (convertValueByType v datatype).2 = []) := by
  refine ⟨rfl, ?_, ?_, ?_, fun v => rfl, fun v => rfl, fun v => rfl, ?_⟩
  · intro v
    cases h : pyIntOpt v <;>
      simp [convertValueByType, convertByTag, h, show pyLower "int" = "int" from rfl]
  · intro v
    cases h : pyFloatOpt v <;>
      simp [convertValueByType, convertByTag, h, show pyLower "float" = "float" from rfl]
  · intro s
    have hc : (["true", "1", "yes", "t"] : List String).contains (pyLower s)
        = decide (pyLower s ∈ (["true", "1", "yes", "t"] : List String)) := by
      by_cases hm : pyLower s ∈ (["true", "1", "yes", "t"] : List String)
      · simp [hm]
      · simp [hm]
    show (PyVal.bool ((["true", "1", "yes", "t"] : List String).contains (pyLower s)), ([] : List String))
        = (PyVal.bool (decide (pyLower s ∈ (["true", "1", "yes", "t"] : List String))), [])
    rw [hc]
  · intro v datatype
    by_cases h : datatype = ""
    · simp [convertValueByType, h]
    · unfold convertValueByType
      rw [if_neg h]
      generalize pyLower datatype = dt
      unfold convertByTag
      split_ifs <;>
        first
          | rfl
          | (cases pyIntOpt v <;> rfl)
          | (cases pyFloatOpt v <;> rfl)
          | (cases v <;> rfl)

/-- C4 counterexample to the claim as stated: the string "abc" with tag int
is returned unchanged and the call emits no diagnostic — the diagnostics
component is empty, where the claim asserts a diagnostic is emitted. -/
theorem convert_abc_no_diagnostic :
    convertValueByType (PyVal.str "abc") "int" = (PyVal.str "abc", []) ∧
    (convertValueByType (PyVal.str "abc") "int").2.length = 0 :=
  ⟨rfl, rfl⟩

/-- C3 (amended): when the full path keys of an attribute tree are pairwise
distinct, flattening into an empty dict yields exactly attrCount-many (Σ Ai)
bindings with pairwise distinct keys, in depth-first order. A duplicate
path+key collision is not rejected anywhere — neither at construction nor at
flattening; the later assignment silently overwrites the earlier value (see
the counterexample theorem). -/
theorem flatten_unique_keys_exact_count (c : CustomClass)
    (h : (flatKeys c []).Nodup) :
    flattenCC c [] [] = specPairs c [] ∧
    (flattenCC c [] []).length = attrCount c ∧
    ((flattenCC c [] []).map Prod.fst).Nodup := by
  have he : flattenCC c [] [] = specPairs c [] := by
    rw [flattenCC_eq,
      foldlSet_fresh (specPairs c []) [] (fun kv _ => rfl) h, List.nil_append]
  refine ⟨he, ?_, ?_⟩
  · rw [he, specPairs_length]
  · rw [he]; exact h

/-- C3 witness: the Vessel/Engine tree has two distinct path keys and flattens
to exactly two bindings. -/
theorem flatten_unique_keys_exact_count_witness :
    (flatKeys exVessel []).Nodup ∧
    (flattenCC exVessel [] []).length = attrCount exVessel :=
  ⟨by decide, (flatten_unique_keys_exact_count exVessel (by decide)).2.1⟩

/-- C3 counterexample to the claim as stated: a class X with two attributes
both keyed k is constructed without any error, and flattening silently
overwrites the first value — it produces one binding holding the second
value, not Σ Ai = 2 bindings. -/
theorem flatten_duplicate_key_overwrites :
    flattenCC exDupClass [] [] = [("X/k", PyVal.int 2)] ∧
    attrCount exDupClass = 2 ∧
    (flattenCC exDupClass [] []).length = 1 :=
  ⟨rfl, rfl, rfl⟩

/-- C6 (amended): the flattening recursion is exactly the spec path rule — it
folds the bindings (path/attr.key, scalar-or-str value) produced by the
`/`-joined ancestor-classname rule, in depth-first order, into the target
dict. On the Vessel/Engine scenario the produced map is
Vessel/tonnage = 500 and Vessel/Engine/power = "250": the flattening performs
no datatype coercion, so the string value "250" stays a string even though
the attribute carries the datatype tag int. -/
theorem flatten_path_rule :
    (∀ (c : CustomClass) (d : Dict) (stack : List String),
        flattenCC c d stack = foldlSet d (specPairs c stack)) ∧
    flattenCC exVessel [] []
      = [("Vessel/tonnage", PyVal.int 500), ("Vessel/Engine/power", PyVal.str "250")] :=
  ⟨flattenCC_eq, rfl⟩

/-- C6 counterexample to the claim as stated: the flat value under
Vessel/Engine/power is the unchanged string "250", not the integer 250 the
claim's scenario asserts. -/
theorem flatten_string_value_not_coerced :
    dictGet (flattenCC exVessel [] []) "Vessel/Engine/power"
        = some (PyVal.str "250") ∧
    dictGet (flattenCC exVessel [] []) "Vessel/Engine/power"
        ≠ some (PyVal.int 250) := by
  refine ⟨rfl, ?_⟩
  intro h
  have h2 : some (PyVal.str "250") = some (PyVal.int 250) := h
  exact PyVal.noConfusion (Option.some.inj h2)

theorem wrapperFacts_eq_convertCC (a : Attribute) :
    PrologRepo.wrapperFacts a
      = PrologRepo.convertCC
          (CustomClass.mk ("attr_child_" ++ a.id) "child_attr_wrapper" [a] []) := by
  cases a with
  | mk i k v dt ds ch =>
      have hm : ∀ x : String,
          "custom_class(\x27" ++ ("attr_child_" ++ x)
            = "custom_class(\x27attr_child_" ++ x := by
        intro x
        rw [← String.append_assoc]
        simp
      simp only [PrologRepo.wrapperFacts, PrologRepo.convertCC,
        PrologRepo.attrListFacts, PrologRepo.classChildFacts, Attribute.id,
        List.append_nil, String.append_assoc, hm]
      simp

/-- C7 (code bug evidence): the escaping step of convert_metadata_to_facts
escapes every apostrophe in each fact, the fact-syntax quote delimiters
included — the first fact for the example aggregate comes out as
metadata(\'m1\') instead of the well-formed metadata('m1'). -/
theorem convert_facts_escape_hits_delimiters :
    (PrologRepo.convertMetadataToFacts exPMeta).head?
        = some ("metadata(\x5c\x27m1\x5c\x27)") ∧
    ¬((PrologRepo.convertMetadataToFacts exPMeta).head?
        = some ("metadata(\x27m1\x27)")) := by
  exact ⟨by decide, by decide⟩

/-- C8 (code bug evidence): for a source whose additional temporal extent is a
TemporalExtentPeriod, to_collection_metadata writes the keys temp_type and
temp_period_from/expected/to without the src_ prefix that every other extent
branch (and the source's own comment) uses. -/
theorem collection_metadata_period_missing_src :
    dictGet (toCollectionMetadata exPeriodSource) "temp_type"
        = some (PyVal.str "period") ∧
    dictGet (toCollectionMetadata exPeriodSource) "src_temp_type" = Option.none ∧
    dictGet (toCollectionMetadata exPeriodSource) "temp_period_from"
        = some (PyVal.float 1577836800) ∧
    dictGet (toCollectionMetadata exPeriodSource) "src_temp_str_from" = Option.none :=
  ⟨rfl, rfl, rfl, rfl⟩

/-- C2 (amended): the flattened searchable metadata of every ContentsMetadata
contains id, reference, abstract and topic_category copied as-is (title is
not among the copied fields, and a None value is passed through unchanged
rather than replaced by an empty string), the keyword ids joined with `,`
under keywords_str, and the canonical serialization of the whole object under
structured. -/
theorem searchable_metadata_base_fields (c : ContentsMetadata) :
    dictGet (toSearchableMetadata c) "id" = some c.id ∧
    dictGet (toSearchableMetadata c) "reference" = some c.reference ∧
    dictGet (toSearchableMetadata c) "abstract" = some c.abstract ∧
    dictGet (toSearchableMetadata c) "topic_category" = some c.topic_category ∧
    dictGet (toSearchableMetadata c) "keywords_str"
        = some (PyVal.str (String.intercalate "," c.keyword_ids)) ∧
    dictGet (toSearchableMetadata c) "structured"
        = some (PyVal.str (contAsJson c)) ∧
    dictGet (toSearchableMetadata c) "title" = Option.none := by
  refine ⟨?_, ?_, ?_, ?_, ?_, ?_, ?_⟩ <;>
    (rw [searchable_base_get c _ (by decide) (by decide) (by decide)]; rfl)

/-- C2 counterexample to the claim as stated: a ContentsMetadata whose title
is "A Title" and whose abstract is None flattens to a map with no title key
at all, and with the None abstract passed through unchanged instead of
becoming the empty string. -/
theorem searchable_metadata_title_dropped :
    dictGet (toSearchableMetadata exTitledContents) "title" = Option.none ∧
    dictGet (toSearchableMetadata exTitledContents) "abstract" = some PyVal.none ∧
    dictGet (toSearchableMetadata exTitledContents) "abstract"
        ≠ some (PyVal.str "") := by
  refine ⟨rfl, rfl, ?_⟩
  intro h
  have h2 : some PyVal.none = some (PyVal.str "") := h
  exact PyVal.noConfusion (Option.some.inj h2)

theorem searchable_geo_get (i t r a tc : PyVal) (kws : List String)
    (ge : GeographicExtent) (te : Option TemporalExtent)
    (cc : Option CustomClass) (k : String)
    (ht : k ∉ tempSectionKeys) (hs : '/' ∉ k.data) :
    dictGet (toSearchableMetadata
        (ContentsMetadata.mk i t r a tc kws (some ge) te cc)) k
      = dictGet (geoSection ge
          (contBase (ContentsMetadata.mk i t r a tc kws (some ge) te cc))) k := by
  simp only [toSearchableMetadata]
  cases cc <;> cases te <;>
    simp only [] <;>
    (try rw [flattenCC_preserve _ _ _ _ hs]) <;>
    (try rw [tempSection_preserve _ _ _ ht])

/-- C5: for every ContentsMetadata the flattened searchable metadata carries
geo_type string/point/bbox/surface according to the variant, geo_lat/geo_lon
for a point, geo_north/geo_west/geo_south/geo_east for a bounding box,
geo_place for a string place, and geo_wkt exactly for the variants whose
canonical form produces a wkt (point, bbox, surface — not string); in
particular GeoExtentPoint(lat=35.0, lon=139.0) flattens to geo_type "point",
geo_lat 35.0, geo_lon 139.0 and geo_wkt "POINT(139.0 35.0)". -/
theorem searchable_geo_keys :
    (∀ (i t r a tc : PyVal) (kws : List String) (te : Option TemporalExtent)
        (cc : Option CustomClass) (la lo : ℚ),
      dictGet (toSearchableMetadata (ContentsMetadata.mk i t r a tc kws
          (some (GeographicExtent.gpoint la lo)) te cc)) "geo_type"
          = some (PyVal.str "point") ∧
      dictGet (toSearchableMetadata (ContentsMetadata.mk i t r a tc kws
          (some (GeographicExtent.gpoint la lo)) te cc)) "geo_lat"
          = some (PyVal.float la) ∧
      dictGet (toSearchableMetadata (ContentsMetadata.mk i t r a tc kws
          (some (GeographicExtent.gpoint la lo)) te cc)) "geo_lon"
          = some (PyVal.float lo) ∧
      dictGet (toSearchableMetadata (ContentsMetadata.mk i t r a tc kws
          (some (GeographicExtent.gpoint la lo)) te cc)) "geo_wkt"
          = some (PyVal.str ("POINT(" ++ pyFloatRepr lo ++ " " ++ pyFloatRepr la ++ ")"))) ∧
    (∀ (i t r a tc : PyVal) (kws : List String) (te : Option TemporalExtent)
        (cc : Option CustomClass) (gn gw gs ge2 : ℚ),
      dictGet (toSearchableMetadata (ContentsMetadata.mk i t r a tc kws
          (some (GeographicExtent.gbbox gn gw gs ge2)) te cc)) "geo_type"
          = some (PyVal.str "bbox") ∧
      dictGet (toSearchableMetadata (ContentsMetadata.mk i t r a tc kws
          (some (GeographicExtent.gbbox gn gw gs ge2)) te cc)) "geo_north"
          = some (PyVal.float gn) ∧
      dictGet (toSearchableMetadata (ContentsMetadata.mk i t r a tc kws
          (some (GeographicExtent.gbbox gn gw gs ge2)) te cc)) "geo_west"
          = some (PyVal.float gw) ∧
      dictGet (toSearchableMetadata (ContentsMetadata.mk i t r a tc kws
          (some (GeographicExtent.gbbox gn gw gs ge2)) te cc)) "geo_south"
          = some (PyVal.float gs) ∧
      dictGet (toSearchableMetadata (ContentsMetadata.mk i t r a tc kws
          (some (GeographicExtent.gbbox gn gw gs ge2)) te cc)) "geo_east"
          = some (PyVal.float ge2) ∧
      (dictGet (toSearchableMetadata (ContentsMetadata.mk i t r a tc kws
          (some (GeographicExtent.gbbox gn gw gs ge2)) te cc)) "geo_wkt").isSome
          = true) ∧
    (∀ (i t r a tc : PyVal) (kws : List String) (te : Option TemporalExtent)
        (cc : Option CustomClass) (p desc : String),
      dictGet (toSearchableMetadata (ContentsMetadata.mk i t r a tc kws
          (some (GeographicExtent.gstring p desc)) te cc)) "geo_type"
          = some (PyVal.str "string") ∧
      dictGet (toSearchableMetadata (ContentsMetadata.mk i t r a tc kws
          (some (GeographicExtent.gstring p desc)) te cc)) "geo_place"
          = some (PyVal.str p) ∧
      dictGet (toSearchableMetadata (ContentsMetadata.mk i t r a tc kws
          (some (GeographicExtent.gstring p desc)) te cc)) "geo_wkt"
          = Option.none) ∧
    (∀ (i t r a tc : PyVal) (kws : List String) (te : Option TemporalExtent)
        (cc : Option CustomClass) (w : String),
      dictGet (toSearchableMetadata (ContentsMetadata.mk i t r a tc kws
          (some (GeographicExtent.gsurface w)) te cc)) "geo_type"
          = some (PyVal.str "surface") ∧
      dictGet (toSearchableMetadata (ContentsMetadata.mk i t r a tc kws
          (some (GeographicExtent.gsurface w)) te cc)) "geo_wkt"
          = some (PyVal.str w)) ∧
    (dictGet (toSearchableMetadata exPointContents) "geo_type"
        = some (PyVal.str "point") ∧
      dictGet (toSearchableMetadata exPointContents) "geo_lat"
        = some (PyVal.float 35) ∧
      dictGet (toSearchableMetadata exPointContents) "geo_lon"
        = some (PyVal.float 139) ∧
      dictGet (toSearchableMetadata exPointContents) "geo_wkt"
        = some (PyVal.str "POINT(139.0 35.0)")) := by
  refine ⟨?_, ?_, ?_, ?_, rfl, rfl, rfl, rfl⟩
  · intro i t r a tc kws te cc la lo
    refine ⟨?_, ?_, ?_, ?_⟩ <;> rw [searchable_geo_get _ _ _ _ _ _ _ _ _ _ (by decide) (by decide)]
    · show dictGet (dictSet (dictSet (dictSet (dictSet _
        "geo_wkt" (PyVal.str ("POINT(" ++ pyFloatRepr lo ++ " " ++ pyFloatRepr la ++ ")")))
        "geo_type" (PyVal.str "point"))
        "geo_lat" (PyVal.float la)) "geo_lon" (PyVal.float lo)) "geo_type"
          = some (PyVal.str "point")
      rw [dictGet_dictSet_ne _ _ _ _ (by decide), dictGet_dictSet_ne _ _ _ _ (by decide),
        dictGet_dictSet_self]
    · show dictGet (dictSet (dictSet (dictSet (dictSet _
        "geo_wkt" (PyVal.str ("POINT(" ++ pyFloatRepr lo ++ " " ++ pyFloatRepr la ++ ")")))
        "geo_type" (PyVal.str "point"))
        "geo_lat" (PyVal.float la)) "geo_lon" (PyVal.float lo)) "geo_lat"
          = some (PyVal.float la)
      rw [dictGet_dictSet_ne _ _ _ _ (by decide), dictGet_dictSet_self]
    · show dictGet (dictSet (dictSet (dictSet (dictSet _
        "geo_wkt" (PyVal.str ("POINT(" ++ pyFloatRepr lo ++ " " ++ pyFloatRepr la ++ ")")))
        "geo_type" (PyVal.str "point"))
        "geo_lat" (PyVal.float la)) "geo_lon" (PyVal.float lo)) "geo_lon"
          = some (PyVal.float lo)
      rw [dictGet_dictSet_self]
    · show dictGet (dictSet (dictSet (dictSet (dictSet _
        "geo_wkt" (PyVal.str ("POINT(" ++ pyFloatRepr lo ++ " " ++ pyFloatRepr la ++ ")")))
        "geo_type" (PyVal.str "point"))
        "geo_lat" (PyVal.float la)) "geo_lon" (PyVal.float lo)) "geo_wkt"
          = some (PyVal.str ("POINT(" ++ pyFloatRepr lo ++ " " ++ pyFloatRepr la ++ ")"))
      rw [dictGet_dictSet_ne _ _ _ _ (by decide), dictGet_dictSet_ne _ _ _ _ (by decide),
        dictGet_dictSet_ne _ _ _ _ (by decide), dictGet_dictSet_self]
  · intro i t r a tc kws te cc gn gw gs ge2
    have hshape : ∀ d : Dict, geoSection (GeographicExtent.gbbox gn gw gs ge2) d
        = dictSet (dictSet (dictSet (dictSet (dictSet (dictSet d
            "geo_wkt" (PyVal.str ("POLYGON((" ++ pyFloatRepr gw ++ " " ++ pyFloatRepr gn
              ++ ", " ++ pyFloatRepr ge2 ++ " " ++ pyFloatRepr gn
              ++ ", " ++ pyFloatRepr ge2 ++ " " ++ pyFloatRepr gs
              ++ ", " ++ pyFloatRepr gw ++ " " ++ pyFloatRepr gs
              ++ ", " ++ pyFloatRepr gw ++ " " ++ pyFloatRepr gn ++ "))")))
            "geo_type" (PyVal.str "bbox"))
            "geo_north" (PyVal.float gn))
            "geo_west" (PyVal.float gw))
            "geo_south" (PyVal.float gs))
            "geo_east" (PyVal.float ge2) := fun d => rfl
    refine ⟨?_, ?_, ?_, ?_, ?_, ?_⟩ <;>
      rw [searchable_geo_get _ _ _ _ _ _ _ _ _ _ (by decide) (by decide), hshape]
    · rw [dictGet_dictSet_ne _ _ _ _ (by decide), dictGet_dictSet_ne _ _ _ _ (by decide),
        dictGet_dictSet_ne _ _ _ _ (by decide), dictGet_dictSet_ne _ _ _ _ (by decide),
        dictGet_dictSet_self]
    · rw [dictGet_dictSet_ne _ _ _ _ (by decide), dictGet_dictSet_ne _ _ _ _ (by decide),
        dictGet_dictSet_ne _ _ _ _ (by decide), dictGet_dictSet_self]
    · rw [dictGet_dictSet_ne _ _ _ _ (by decide), dictGet_dictSet_ne _ _ _ _ (by decide),
        dictGet_dictSet_self]
    · rw [dictGet_dictSet_ne _ _ _ _ (by decide), dictGet_dictSet_self]
    · rw [dictGet_dictSet_self]
    · rw [dictGet_dictSet_ne _ _ _ _ (by decide), dictGet_dictSet_ne _ _ _ _ (by decide),
        dictGet_dictSet_ne _ _ _ _ (by decide), dictGet_dictSet_ne _ _ _ _ (by decide),
        dictGet_dictSet_ne _ _ _ _ (by decide), dictGet_dictSet_self]
      rfl
  · intro i t r a tc kws te cc p desc
    refine ⟨?_, ?_, ?_⟩ <;> rw [searchable_geo_get _ _ _ _ _ _ _ _ _ _ (by decide) (by decide)]
    · show dictGet (dictSet (dictSet _ "geo_type" (PyVal.str "string"))
        "geo_place" (PyVal.str p)) "geo_type" = some (PyVal.str "string")
      rw [dictGet_dictSet_ne _ _ _ _ (by decide), dictGet_dictSet_self]
    · show dictGet (dictSet (dictSet _ "geo_type" (PyVal.str "string"))
        "geo_place" (PyVal.str p)) "geo_place" = some (PyVal.str p)
      rw [dictGet_dictSet_self]
    · show dictGet (dictSet (dictSet (contBase _) "geo_type" (PyVal.str "string"))
        "geo_place" (PyVal.str p)) "geo_wkt" = Option.none
      rw [dictGet_dictSet_ne _ _ _ _ (by decide), dictGet_dictSet_ne _ _ _ _ (by decide)]
      rfl
  · intro i t r a tc kws te cc w
    refine ⟨?_, ?_⟩ <;> rw [searchable_geo_get _ _ _ _ _ _ _ _ _ _ (by decide) (by decide)]
    · show dictGet (dictSet (dictSet _ "geo_wkt" (PyVal.str w))
        "geo_type" (PyVal.str "surface")) "geo_type" = some (PyVal.str "surface")
      rw [dictGet_dictSet_self]
    · show dictGet (dictSet (dictSet _ "geo_wkt" (PyVal.str w))
        "geo_type" (PyVal.str "surface")) "geo_wkt" = some (PyVal.str w)
      rw [dictGet_dictSet_ne _ _ _ _ (by decide), dictGet_dictSet_self]
